import Mathlib

/-!
Verification of the WireGuard key-rotation manager of the IVPN desktop daemon.

Shallow embedding of:
- `src/service/wgkeys/manager.go` (the rotation scheduler/executor), and
- `src/service/preferences/preferences.go` (the persisted-preferences fixups).

Modelling conventions:
- Go `time.Time` and `time.Duration` are modelled as unbounded integers (`Int`)
  counting nanoseconds, matching Go's `time.Duration` unit.
  `t.Add(d)` is `t + d`, `time.Until(t)` at instant `now` is `t - now`,
  `a.After(b)` is `a > b`, `a.Before(b)` is `a < b`, and the zero `time.Time{}`
  is `0`.
- The external capabilities (key generation via `wireguard.GenerateKeys`, the
  issuance call `api.WireGuardKeySet`, the tunnel-state query `Connected`) are
  oracle parameters; the observable calls the manager makes to them are
  recorded in an explicit effects record.
- The two reads of `WireGuardGetKeys` in `generateKeys` (the advisory unlocked
  read and the authoritative read under the mutex) are separate parameters
  `outer`/`inner`, each with its own `time.Now()` instant, so that concurrent
  interleavings between them are expressible.
-/

namespace Wgkeys

/-- One nanosecond-denominated second, as in Go's `time.Second`. -/
def second : Int := 1000000000

/-- Go's `time.Hour` in nanoseconds. -/
def hour : Int := 3600 * second

/-- The key state returned by `IWgKeysChangeReceiver.WireGuardGetKeys`:
`(session, wgPublicKey, wgPrivateKey, wgLocalIP, generatedTime, updateInterval)`. -/
structure KeyState where
  session : String
  activePublicKey : String
  privateKey : String
  localIP : String
  generatedAt : Int
  interval : Int
deriving DecidableEq

/-- Result of one call into `KeysManager.generateKeys` (manager.go:157-235).
`notDue` is the `haveToUpdate == false && err == nil` early return: the call
returns a nil error having performed no action. -/
inductive RotResult
  | errNotInitialized
  | errIntervalUndefined
  | notDue
  | errKeyGen
  | errIssuance
  | success
deriving DecidableEq

/-- Whether the returned value is a non-nil Go error (`notDue` and `success`
both return `nil`). -/
def RotResult.isError : RotResult → Bool
  | .notDue => false
  | .success => false
  | _ => true

/-- Observable calls `generateKeys` makes to its collaborators, in the order
they appear in the source: `wireguard.GenerateKeys`, then
`api.WireGuardKeySet(session, pub, activeKeyToUpdate)`, then
`WireGuardSaveNewKeys(pub, priv, localIP)`, then possibly
`StartKeysRotation`. -/
structure RotEffects where
  keyGenCalls : Nat
  issuanceCalls : List (String × String × String)
  persistCalls : List (String × String × String)
  startRotationCalls : Nat
deriving DecidableEq

/-- No observable calls. -/
def RotEffects.empty : RotEffects := ⟨0, [], [], 0⟩

/-- The environment of one attempt: whether `Init` has been called
(`m._service != nil`), the outcome of `wireguard.GenerateKeys`, the value of
`m._service.Connected()`, and the outcome of `m._apiObj.WireGuardKeySet`
(the assigned local IP on success). -/
structure RotEnv where
  initialized : Bool
  keyGenResult : Except Unit (String × String)
  connected : Bool
  issuanceResult : Except Unit String

/-- The closure `isNecessaryUpdate` of manager.go:173-189, evaluated against
the captured `(activePublicKey, generatedAt, interval)` of state `st` at
instant `now`. `Except.error ()` is the `(false, err)` return for an undefined
interval; `Except.ok b` is `(b, nil)`. -/
def isNecessaryUpdate (onlyUpdateIfNecessary : Bool) (st : KeyState) (now : Int) :
    Except Unit Bool :=
  if onlyUpdateIfNecessary = false then .ok true
  else if st.interval ≤ 0 then .error ()
  else if 0 < st.activePublicKey.length then
    if st.generatedAt + st.interval > now then .ok false
    else .ok true
  else .ok true

/-- `KeysManager.generateKeys(onlyUpdateIfNecessary)` (manager.go:157-235).
`outer`/`now1` are the state and instant of the advisory unlocked read and
check; `inner`/`now2` those of the re-read and re-check under `m._mutex`.
Returns the call's outcome together with the calls made to collaborators. -/
def generateKeys (env : RotEnv) (onlyUpdateIfNecessary : Bool)
    (outer : KeyState) (now1 : Int) (inner : KeyState) (now2 : Int) :
    RotResult × RotEffects :=
  if env.initialized = false then (.errNotInitialized, .empty)
  else
    match isNecessaryUpdate onlyUpdateIfNecessary outer now1 with
    | .error _ => (.errIntervalUndefined, .empty)
    | .ok false => (.notDue, .empty)
    | .ok true =>
      match isNecessaryUpdate onlyUpdateIfNecessary inner now2 with
      | .error _ => (.errIntervalUndefined, .empty)
      | .ok false => (.notDue, .empty)
      | .ok true =>
        match env.keyGenResult with
        | .error _ => (.errKeyGen, { RotEffects.empty with keyGenCalls := 1 })
        | .ok (pub, priv) =>
          let activeKeyToUpdate :=
            if env.connected = false then "" else inner.activePublicKey
          let calls := [(inner.session, pub, activeKeyToUpdate)]
          match env.issuanceResult with
          | .error _ =>
            (.errIssuance,
              { keyGenCalls := 1, issuanceCalls := calls,
                persistCalls := [], startRotationCalls := 0 })
          | .ok localIP =>
            (.success,
              { keyGenCalls := 1, issuanceCalls := calls,
                persistCalls := [(pub, priv, localIP)],
                startRotationCalls :=
                  if inner.activePublicKey.length = 0 then 1 else 0 })

/-- Outcome of `KeysManager.StartKeysRotation` (manager.go:78-94) up to and
including the decision whether to spawn the rotation goroutine.
`okNoLoop` is the `len(activePublicKey) == 0` path: a nil-error return with no
goroutine started. -/
inductive StartRotationResult
  | errNotInitialized
  | errIntervalUndefined
  | okNoLoop
  | okLoopStarted
deriving DecidableEq

/-- `KeysManager.StartKeysRotation` (manager.go:78-94), reading state `st`. -/
def startKeysRotation (initialized : Bool) (st : KeyState) : StartRotationResult :=
  if initialized = false then .errNotInitialized
  else if st.interval ≤ 0 then .errIntervalUndefined
  else if st.activePublicKey.length = 0 then .okNoLoop
  else .okLoopStarted

/-- The wait computed by one iteration of the rotation goroutine
(manager.go:103-113): `waitInterval := time.Until(lastUpdate.Add(interval))`;
if the previous attempt failed, `waitInterval = time.Hour` and
`lastUpdate = time.Now()`; then the clamp
`if lastUpdate.Add(waitInterval).Before(time.Now()) { waitInterval = time.Second }`.
All three `time.Now()` calls of the iteration are the single instant `now`. -/
def loopIterWait (isLastUpdateFailed : Bool) (lastUpdate interval now : Int) : Int :=
  let waitInterval := lastUpdate + interval - now
  let lastUpdate' := if isLastUpdateFailed then now else lastUpdate
  let waitInterval' := if isLastUpdateFailed then hour else waitInterval
  if lastUpdate' + waitInterval' < now then second else waitInterval'

/-- The failure flag after the loop's tick (manager.go:117-123):
`isLastUpdateFailed` becomes true iff `UpdateKeysIfNecessary` returned a
non-nil error. -/
def loopTickNextFlag (attemptResult : RotResult) : Bool :=
  attemptResult.isError

/-! ### Concurrency model for the mutual-exclusion guard

`generateKeys` under concurrent invocation is modelled as a transition system:
`n` threads each run the attempt's control skeleton
(advisory check → wait on `m._mutex` → re-check → guarded work → unlock),
with the shared lock bit and the credential-store state as global state.
Lock acquisition is atomic (the semantics of `sync.Mutex.Lock`); the guarded
work (key generation, issuance, persistence) on success replaces the store's
key material and stamps `generatedAt` with the current instant, as
`WireGuardSaveNewKeys` does. The instant `now` is held fixed across a run:
attempts are short relative to rotation intervals. A successfully generated
public key is non-empty (spec §3: provisioned `publicKey`/`privateKey` are
both non-empty). -/

/-- Control location of one thread running `generateKeys`. -/
inductive PC
  | start
  | waiting
  | checking
  | working
  | finished : RotResult → PC
deriving DecidableEq

/-- Global state: the mutex bit, the credential store, and every thread's
control location. -/
structure GState (n : Nat) where
  lock : Bool
  store : KeyState
  pcs : Fin n → PC

/-- Whether a control location is past the mutual-exclusion guard: holding
the mutex, inside the re-check or the guarded work (manager.go:195-232). -/
def PC.pastGuard : PC → Bool
  | .checking => true
  | .working => true
  | _ => false

/-- Thread `i` is past the mutual-exclusion guard in state `s`. -/
def InGuard {n : Nat} (s : GState n) (i : Fin n) : Prop :=
  (s.pcs i).pastGuard = true

/-- The effect of a successful guarded rotation on the credential store:
`WireGuardSaveNewKeys(pub, priv, localIP)` installs the new key material and
stamps its generation time with the current instant. -/
def rotateStore (st : KeyState) (pub priv ip : String) (now : Int) : KeyState :=
  { st with activePublicKey := pub, privateKey := priv,
            localIP := ip, generatedAt := now }

/-- One interleaving step. `forced i = true` means thread `i` runs
`GenerateKeys` (forced), `false` means `UpdateKeysIfNecessary`. -/
inductive Step (n : Nat) (forced : Fin n → Bool) (now : Int) :
    GState n → GState n → Prop
  | preCheckGo (s : GState n) (i : Fin n) :
      s.pcs i = PC.start →
      isNecessaryUpdate (!(forced i)) s.store now = .ok true →
      Step n forced now s { s with pcs := Function.update s.pcs i PC.waiting }
  | preCheckNotDue (s : GState n) (i : Fin n) :
      s.pcs i = PC.start →
      isNecessaryUpdate (!(forced i)) s.store now = .ok false →
      Step n forced now s
        { s with pcs := Function.update s.pcs i (PC.finished .notDue) }
  | preCheckErr (s : GState n) (i : Fin n) :
      s.pcs i = PC.start →
      isNecessaryUpdate (!(forced i)) s.store now = .error () →
      Step n forced now s
        { s with pcs :=
            Function.update s.pcs i (PC.finished .errIntervalUndefined) }
  | acquire (s : GState n) (i : Fin n) :
      s.pcs i = PC.waiting →
      s.lock = false →
      Step n forced now s
        { s with lock := true, pcs := Function.update s.pcs i PC.checking }
  | recheckGo (s : GState n) (i : Fin n) :
      s.pcs i = PC.checking →
      isNecessaryUpdate (!(forced i)) s.store now = .ok true →
      Step n forced now s { s with pcs := Function.update s.pcs i PC.working }
  | recheckNotDue (s : GState n) (i : Fin n) :
      s.pcs i = PC.checking →
      isNecessaryUpdate (!(forced i)) s.store now = .ok false →
      Step n forced now s
        { s with lock := false,
                 pcs := Function.update s.pcs i (PC.finished .notDue) }
  | recheckErr (s : GState n) (i : Fin n) :
      s.pcs i = PC.checking →
      isNecessaryUpdate (!(forced i)) s.store now = .error () →
      Step n forced now s
        { s with lock := false,
                 pcs := Function.update s.pcs i
                   (PC.finished .errIntervalUndefined) }
  | workSucceed (s : GState n) (i : Fin n) (pub priv ip : String) :
      s.pcs i = PC.working →
      pub.length ≠ 0 →
      Step n forced now s
        { lock := false, store := rotateStore s.store pub priv ip now,
          pcs := Function.update s.pcs i (PC.finished .success) }
  | workFail (s : GState n) (i : Fin n) (r : RotResult) :
      s.pcs i = PC.working →
      (r = .errKeyGen ∨ r = .errIssuance) →
      Step n forced now s
        { s with lock := false,
                 pcs := Function.update s.pcs i (PC.finished r) }

/-- The initial global state: mutex free, every thread about to enter
`generateKeys`. -/
def initGState (n : Nat) (st0 : KeyState) : GState n :=
  { lock := false, store := st0, pcs := fun _ => PC.start }

/-- Reachability from the initial state under arbitrary interleaving. -/
def Reachable (n : Nat) (forced : Fin n → Bool) (now : Int) (st0 : KeyState)
    (s : GState n) : Prop :=
  Relation.ReflTransGen (Step n forced now) (initGState n st0) s

/-- The inductive invariant: threads past the guard are pairwise equal, and a
free mutex means no thread is past the guard. -/
def GuardInv {n : Nat} (s : GState n) : Prop :=
  (∀ i j : Fin n, InGuard s i → InGuard s j → i = j) ∧
  (s.lock = false → ∀ i : Fin n, ¬ InGuard s i)

end Wgkeys

namespace Prefs

/-- `preferences.DefaultWGKeysInterval = time.Hour * 24 * 7`
(preferences.go:44), in nanoseconds. -/
def DefaultWGKeysInterval : Int := Wgkeys.hour * 24 * 7

/-- The `SessionStatus` value held in `Preferences.Session`; fields as read
and written by preferences.go (`AccountID`, `Session`, `OpenVPNUser`,
`OpenVPNPass`, `WGPublicKey`, `WGPrivateKey`, `WGLocalIP`, `WGKeyGenerated`,
`WGKeysRegenInerval`). `WGKeyGenerated` is a timestamp; the zero
`time.Time{}` is `0`. -/
structure SessionStatus where
  AccountID : String
  Session : String
  OpenVPNUser : String
  OpenVPNPass : String
  WGPublicKey : String
  WGPrivateKey : String
  WGLocalIP : String
  WGKeyGenerated : Int
  WGKeysRegenInerval : Int
deriving DecidableEq

/-- `preferences.Preferences` (preferences.go:48-59). -/
structure Preferences where
  IsLogging : Bool
  IsFwPersistant : Bool
  IsFwAllowLAN : Bool
  IsFwAllowLANMulticast : Bool
  IsStopOnClientDisconnect : Bool
  IsObfsproxy : Bool
  Session : SessionStatus
deriving DecidableEq

/-- Modelled from the spec: `SessionStatus.updateWgCredentials` is called by
preferences.go but its body is not under src/. Per spec §6,
`persistNewKeyState(publicKey, privateKey, localAddress)` commits a successful
rotation, and per §3 KeyMaterial is
`{publicKey, privateKey, localAddress, generatedAt}` with `generatedAt` the
"generated now" timestamp (§4.2 step 7); the rotation interval belongs to
`RotationPolicy`, not KeyMaterial, so it is left untouched. -/
def SessionStatus.updateWgCredentials (s : SessionStatus)
    (wgPublicKey wgPrivateKey wgLocalIP : String) (now : Int) : SessionStatus :=
  { s with WGPublicKey := wgPublicKey, WGPrivateKey := wgPrivateKey,
           WGLocalIP := wgLocalIP, WGKeyGenerated := now }

/-- The normalisation `LoadPreferences` applies after successfully
unmarshalling a current-format settings blob into `p`
(preferences.go:131-139): reset `WGKeyGenerated` when any of the WireGuard
credential fields is empty, then default a non-positive
`WGKeysRegenInerval`. -/
def loadPreferencesFixup (p : Preferences) : Preferences :=
  let p1 :=
    if p.Session.WGPublicKey.length = 0 ∨ p.Session.WGPrivateKey.length = 0 ∨
        p.Session.WGLocalIP.length = 0 then
      { p with Session := { p.Session with WGKeyGenerated := 0 } }
    else p
  if p1.Session.WGKeysRegenInerval ≤ 0 then
    { p1 with Session :=
        { p1.Session with WGKeysRegenInerval := DefaultWGKeysInterval } }
  else p1

/-- `Preferences.setSession` (preferences.go:144-164): rebuild the session
from trimmed credentials keeping the previous `WGKeysRegenInerval`, default
it when non-positive, then `updateWgCredentials`. -/
def setSession (p : Preferences) (accountID session vpnUser vpnPass
    wgPublicKey wgPrivateKey wgLocalIP : String) (now : Int) : Preferences :=
  let s : SessionStatus :=
    { AccountID := accountID.trim, Session := session.trim,
      OpenVPNUser := vpnUser.trim, OpenVPNPass := vpnPass.trim,
      WGPublicKey := "", WGPrivateKey := "", WGLocalIP := "",
      WGKeyGenerated := 0,
      WGKeysRegenInerval := p.Session.WGKeysRegenInerval }
  let s1 :=
    if s.WGKeysRegenInerval ≤ 0 then
      { s with WGKeysRegenInerval := DefaultWGKeysInterval }
    else s
  { p with Session :=
      s1.updateWgCredentials wgPublicKey wgPrivateKey wgLocalIP now }

end Prefs

open Wgkeys Prefs

/-! ### Helper lemmas about `generateKeys` -/

/-- When the advisory check concludes not-due, `generateKeys` performs no
collaborator call and returns the nil-error `notDue` outcome. -/
theorem generateKeys_notDue_of_check (env : RotEnv) (ou : Bool)
    (outer : KeyState) (n1 : Int) (inner : KeyState) (n2 : Int)
    (hInit : env.initialized = true)
    (h1 : isNecessaryUpdate ou outer n1 = .ok false) :
    generateKeys env ou outer n1 inner n2 = (.notDue, .empty) := by
  simp [generateKeys, hInit, h1]

/-- When both the advisory check and the locked re-check conclude due,
`generateKeys` invokes the key-generation capability exactly once and does
not return `notDue`. -/
theorem generateKeys_proceeds (env : RotEnv) (ou : Bool)
    (outer : KeyState) (n1 : Int) (inner : KeyState) (n2 : Int)
    (hInit : env.initialized = true)
    (h1 : isNecessaryUpdate ou outer n1 = .ok true)
    (h2 : isNecessaryUpdate ou inner n2 = .ok true) :
    (generateKeys env ou outer n1 inner n2).2.keyGenCalls = 1 ∧
    (generateKeys env ou outer n1 inner n2).1 ≠ RotResult.notDue := by
  obtain ⟨init, kg, conn, iss⟩ := env
  rcases kg with u | ⟨pub, priv⟩ <;> rcases iss with u' | ip <;>
    simp_all [generateKeys]

/-- Joint characterisation of the observable effects of `generateKeys`:
persistence happens exactly on success, the issuance old-key argument follows
the connection state, the rotation loop is started exactly on a success that
saw an empty active key, and a forced call invokes key generation whenever
the manager is initialized. -/
theorem generateKeys_effects (env : RotEnv) (ou : Bool)
    (outer : KeyState) (n1 : Int) (inner : KeyState) (n2 : Int) :
    ((generateKeys env ou outer n1 inner n2).2.persistCalls.length =
      if (generateKeys env ou outer n1 inner n2).1 = RotResult.success
      then 1 else 0) ∧
    (((generateKeys env ou outer n1 inner n2).2.issuanceCalls.all fun c =>
        c.2.2 == if env.connected then inner.activePublicKey else "") = true) ∧
    ((generateKeys env ou outer n1 inner n2).2.startRotationCalls =
      if (generateKeys env ou outer n1 inner n2).1 = RotResult.success ∧
         inner.activePublicKey.length = 0
      then 1 else 0) ∧
    (ou = false →
      (generateKeys env ou outer n1 inner n2).2.keyGenCalls =
        if env.initialized then 1 else 0) := by
  obtain ⟨init, kg, conn, iss⟩ := env
  cases ou
  · cases init <;> rcases kg with u | ⟨pub, priv⟩ <;> rcases iss with u' | ip <;>
      cases conn <;> simp [generateKeys, isNecessaryUpdate, RotEffects.empty]
  · cases init
    · simp [generateKeys, RotEffects.empty]
    · rcases h1 : isNecessaryUpdate true outer n1 with u | b1
      · simp [generateKeys, h1, RotEffects.empty]
      · cases b1
        · simp [generateKeys, h1, RotEffects.empty]
        · rcases h2 : isNecessaryUpdate true inner n2 with u | b2
          · simp [generateKeys, h1, h2, RotEffects.empty]
          · cases b2
            · simp [generateKeys, h1, h2, RotEffects.empty]
            · rcases kg with u | ⟨pub, priv⟩ <;> rcases iss with u' | ip <;>
                cases conn <;> simp [generateKeys, h1, h2, RotEffects.empty]

/-! ### Claim theorems -/

/-- C1: for every state with a positive rotation interval and a non-empty
active public key, a non-forced attempt (`UpdateKeysIfNecessary`, i.e.
`generateKeys(true)`) performs no collaborator call and returns the nil-error
`notDue` outcome iff `now < generatedAt + interval`; and at or past the
boundary `now = generatedAt + interval` the attempt proceeds, invoking key
generation. -/
theorem c1_ensureFresh_noop_iff_not_elapsed (env : RotEnv) (st : KeyState)
    (now : Int) (hInit : env.initialized = true)
    (hInt : 0 < st.interval) (hKey : st.activePublicKey.length ≠ 0) :
    ((generateKeys env true st now st now = (RotResult.notDue, RotEffects.empty))
      ↔ now < st.generatedAt + st.interval) ∧
    (st.generatedAt + st.interval ≤ now →
      (generateKeys env true st now st now).2.keyGenCalls = 1) := by
  have hk : 0 < st.activePublicKey.length := Nat.pos_of_ne_zero hKey
  have hi : ¬ st.interval ≤ 0 := by omega
  by_cases hd : now < st.generatedAt + st.interval
  · have h1 : isNecessaryUpdate true st now = .ok false := by
      simp [isNecessaryUpdate, hk, hi, hd]
    refine ⟨⟨fun _ => hd, fun _ => ?_⟩, fun hle => absurd hd (by omega)⟩
    exact generateKeys_notDue_of_check env true st now st now hInit h1
  · have hng : ¬ st.generatedAt + st.interval > now := hd
    have h1 : isNecessaryUpdate true st now = .ok true := by
      simp [isNecessaryUpdate, hk, hi, hng]
    have hp := generateKeys_proceeds env true st now st now hInit h1 h1
    refine ⟨⟨fun he => absurd ?_ hp.2, fun h => absurd h hd⟩, fun _ => hp.1⟩
    rw [he]

/-- Witness for C1: with a 50ns interval, a key generated at 100 and the
clock at 120 < 150, the non-forced attempt is a no-op. -/
theorem c1_ensureFresh_noop_iff_not_elapsed_witness :
    generateKeys ⟨true, Except.ok ("np", "nk"), true, Except.ok "10.0.0.2"⟩
      true ⟨"s", "pk", "sk", "ip0", 100, 50⟩ 120
      ⟨"s", "pk", "sk", "ip0", 100, 50⟩ 120 =
      (RotResult.notDue, RotEffects.empty) :=
  ((c1_ensureFresh_noop_iff_not_elapsed _ _ _ rfl (by decide) (by decide)).1).mpr
    (by decide)

/-- C2: with no preceding failure, at two thirds of a 3-hour interval
(`generatedAt = 0`, `now` = 2 hours) the computed wait
`generatedAt + interval − now` is a full positive hour, yet the loop clamps
the wait to 1 second — the code clamps whenever
`lastUpdate + waitInterval < now`, i.e. already when more than half of the
interval has elapsed, not only when the computed wait is ≤ 0. -/
theorem c2_clamp_fires_on_positive_wait :
    0 < 0 + 3 * hour - 2 * hour ∧
    loopIterWait false 0 (3 * hour) (2 * hour) = second := by
  constructor
  · simp [hour, second]
  · simp [loopIterWait, hour, second]

/-- C3: in a loop iteration following a failed attempt the wait is exactly
one hour, for every persisted `generatedAt` and configured interval; a
successful attempt clears the failure flag (`UpdateKeysIfNecessary` returns a
nil error on `success`), and an un-failed iteration that the clamp leaves
alone waits `generatedAt + interval − now` again. -/
theorem c3_backoff_is_one_hour :
    (∀ g i now : Int, loopIterWait true g i now = hour) ∧
    loopTickNextFlag RotResult.success = false ∧
    (∀ g i now : Int, ¬ g + (g + i - now) < now →
      loopIterWait false g i now = g + i - now) := by
  refine ⟨fun g i now => ?_, rfl, fun g i now hcl => ?_⟩
  · simp [loopIterWait, hour, second]
  · simp [loopIterWait, hcl]

/-- Witness for C3 at concrete inputs. -/
theorem c3_backoff_is_one_hour_witness :
    loopIterWait true 123 456 789 = hour ∧
    loopIterWait false 0 100 30 = 0 + 100 - 30 :=
  ⟨c3_backoff_is_one_hour.1 123 456 789,
   c3_backoff_is_one_hour.2.2 0 100 30 (by decide)⟩

/-- C4: every rotation attempt persists new key state
(`WireGuardSaveNewKeys`) exactly once when it succeeds and never otherwise —
in particular not on a key-generation or issuance failure, so persisted key
material is unchanged on any error, and this is the only mutation the attempt
performs on it. -/
theorem c4_persist_exactly_on_success (env : RotEnv) (ou : Bool)
    (outer : KeyState) (n1 : Int) (inner : KeyState) (n2 : Int) :
    (generateKeys env ou outer n1 inner n2).2.persistCalls.length =
      if (generateKeys env ou outer n1 inner n2).1 = RotResult.success
      then 1 else 0 :=
  (generateKeys_effects env ou outer n1 inner n2).1

/-- C5: every issuance call made by a rotation attempt passes the re-read
active public key as the old-key argument when `Connected()` is true at that
moment, and the empty string when it is false — even when a non-empty active
key exists. -/
theorem c5_old_key_follows_connection (env : RotEnv) (ou : Bool)
    (outer : KeyState) (n1 : Int) (inner : KeyState) (n2 : Int) :
    ((generateKeys env ou outer n1 inner n2).2.issuanceCalls.all fun c =>
      c.2.2 == if env.connected then inner.activePublicKey else "") = true :=
  (generateKeys_effects env ou outer n1 inner n2).2.1

/-- C6: a forced rotation (`GenerateKeys`, i.e. `generateKeys(false)`) is
always due: the due check succeeds unconditionally — without requiring a
positive interval, an existing key, or any elapsed time — and an initialized
manager always proceeds to key generation. -/
theorem c6_forced_always_due (env : RotEnv) (st outer inner : KeyState)
    (now n1 n2 : Int) :
    isNecessaryUpdate false st now = Except.ok true ∧
    (generateKeys env false outer n1 inner n2).2.keyGenCalls =
      if env.initialized then 1 else 0 :=
  ⟨rfl, (generateKeys_effects env false outer n1 inner n2).2.2.2 rfl⟩

/-- C7: with a positive interval and no active public key,
`StartKeysRotation` returns a nil error and starts no loop; and a rotation
attempt calls `StartKeysRotation` exactly when it succeeds having re-read an
empty active public key — hence at most once, since after a success the
persisted key is the non-empty new key. -/
theorem c7_loop_started_by_first_provision (st : KeyState)
    (hInt : 0 < st.interval) (hKey : st.activePublicKey = "") :
    startKeysRotation true st = StartRotationResult.okNoLoop ∧
    ∀ (env : RotEnv) (ou : Bool) (outer : KeyState) (n1 : Int)
      (inner : KeyState) (n2 : Int),
      (generateKeys env ou outer n1 inner n2).2.startRotationCalls =
        if (generateKeys env ou outer n1 inner n2).1 = RotResult.success ∧
           inner.activePublicKey.length = 0
        then 1 else 0 := by
  refine ⟨?_, fun env ou outer n1 inner n2 =>
    (generateKeys_effects env ou outer n1 inner n2).2.2.1⟩
  simp [startKeysRotation, hKey]
  omega

/-- Witness for C7 at a concrete state. -/
theorem c7_loop_started_by_first_provision_witness :
    startKeysRotation true ⟨"sess", "", "", "", 0, hour⟩ =
      StartRotationResult.okNoLoop :=
  (c7_loop_started_by_first_provision ⟨"sess", "", "", "", 0, hour⟩
    (by decide) rfl).1

/-- C9: after the current-format `LoadPreferences` normalisation, if any of
`WGPublicKey`, `WGPrivateKey`, `WGLocalIP` is empty then `WGKeyGenerated` is
the zero timestamp. -/
theorem c9_no_timestamp_without_key_material (p : Preferences)
    (h : p.Session.WGPublicKey.length = 0 ∨ p.Session.WGPrivateKey.length = 0 ∨
      p.Session.WGLocalIP.length = 0) :
    (loadPreferencesFixup p).Session.WGKeyGenerated = 0 := by
  unfold loadPreferencesFixup
  simp only [h, if_true, if_pos]
  split <;> rfl

/-- Witness for C9 at a concrete preferences value with an empty private
key. -/
theorem c9_no_timestamp_without_key_material_witness :
    (loadPreferencesFixup
      ⟨false, false, false, false, false, false,
        ⟨"a", "s", "u", "p", "pk", "", "10.0.0.2", 77, -5⟩⟩).Session.WGKeyGenerated
      = 0 :=
  c9_no_timestamp_without_key_material _ (Or.inr (Or.inl (by decide)))

/-- C10: both the current-format `LoadPreferences` normalisation and
`setSession` leave a strictly positive rotation interval
`WGKeysRegenInerval`, defaulting a non-positive one to 7 days. -/
theorem c10_interval_always_positive (p : Preferences)
    (accountID session vpnUser vpnPass wgPublicKey wgPrivateKey
      wgLocalIP : String) (now : Int) :
    0 < (loadPreferencesFixup p).Session.WGKeysRegenInerval ∧
    0 < (setSession p accountID session vpnUser vpnPass wgPublicKey
      wgPrivateKey wgLocalIP now).Session.WGKeysRegenInerval := by
  have hdef : 0 < DefaultWGKeysInterval := by
    simp [DefaultWGKeysInterval, hour, second]
  constructor
  · unfold loadPreferencesFixup
    dsimp only
    split <;> (try split) <;> (try dsimp only at *) <;>
      first
        | exact hdef
        | omega
  · unfold setSession SessionStatus.updateWgCredentials
    dsimp only
    split <;> (try dsimp only at *) <;>
      first
        | exact hdef
        | omega

/-! ### Mutual exclusion of the rotation guard (C8) -/

/-- Where the in-guard predicate lands after one thread's location is
updated. -/
theorem inGuard_update {n : Nat} (s : GState n) (l' : Bool) (st' : KeyState)
    (i : Fin n) (v : PC) (j : Fin n) :
    InGuard { lock := l', store := st', pcs := Function.update s.pcs i v } j ↔
      (if j = i then v.pastGuard = true else InGuard s j) := by
  unfold InGuard
  by_cases h : j = i <;> simp [Function.update, h]

/-- Updating a thread to a location outside the guard preserves the guard
invariant, provided a released mutex implies no other thread was past the
guard. -/
theorem guardInv_update_exit {n : Nat} {s : GState n} (hInv : GuardInv s)
    (i : Fin n) (v : PC) (l' : Bool) (st' : KeyState)
    (hv : v.pastGuard = false)
    (hl : l' = false → ∀ j : Fin n, j ≠ i → ¬ InGuard s j) :
    GuardInv { lock := l', store := st', pcs := Function.update s.pcs i v } := by
  obtain ⟨hMut, hLock⟩ := hInv
  constructor
  · intro j k hj hk
    rw [inGuard_update] at hj hk
    by_cases hji : j = i
    · rw [if_pos hji, hv] at hj
      exact absurd hj (by simp)
    · by_cases hki : k = i
      · rw [if_pos hki, hv] at hk
        exact absurd hk (by simp)
      · exact hMut j k (by rwa [if_neg hji] at hj) (by rwa [if_neg hki] at hk)
  · intro hfree j
    rw [inGuard_update]
    by_cases hji : j = i
    · rw [if_pos hji, hv]
      simp
    · rw [if_neg hji]
      exact hl hfree j hji

/-- Acquiring a free mutex and entering the re-check preserves the guard
invariant. -/
theorem guardInv_update_acquire {n : Nat} {s : GState n} (hInv : GuardInv s)
    (i : Fin n) (hfree : s.lock = false) :
    GuardInv { s with lock := true,
                      pcs := Function.update s.pcs i PC.checking } := by
  obtain ⟨_, hLock⟩ := hInv
  constructor
  · intro j k hj hk
    rw [inGuard_update] at hj hk
    by_cases hji : j = i
    · by_cases hki : k = i
      · rw [hji, hki]
      · rw [if_neg hki] at hk
        exact absurd hk (hLock hfree k)
    · rw [if_neg hji] at hj
      exact absurd hj (hLock hfree j)
  · intro hfalse
    exact absurd hfalse (by simp)

/-- Moving a thread that is already past the guard to another location
(without touching the mutex) preserves the guard invariant. -/
theorem guardInv_update_stay {n : Nat} {s : GState n} (hInv : GuardInv s)
    (i : Fin n) (hi : InGuard s i) (v : PC) :
    GuardInv { s with pcs := Function.update s.pcs i v } := by
  obtain ⟨hMut, hLock⟩ := hInv
  constructor
  · intro j k hj hk
    rw [inGuard_update] at hj hk
    by_cases hji : j = i
    · by_cases hki : k = i
      · rw [hji, hki]
      · rw [if_neg hki] at hk
        rw [hji]
        exact (hMut k i hk hi).symm
    · rw [if_neg hji] at hj
      by_cases hki : k = i
      · rw [hki]
        exact hMut j i hj hi
      · rw [if_neg hki] at hk
        exact hMut j k hj hk
  · intro hfree
    exact absurd (hLock hfree i hi) (by simp)

/-- The initial state satisfies the guard invariant. -/
theorem guardInv_init (n : Nat) (st0 : KeyState) :
    GuardInv (initGState n st0) := by
  constructor
  · intro i j hi _
    exact absurd hi (by simp [InGuard, initGState, PC.pastGuard])
  · intro _ i
    simp [InGuard, initGState, PC.pastGuard]

/-- Every interleaving step preserves the guard invariant. -/
theorem guardInv_step {n : Nat} {forced : Fin n → Bool} {now : Int}
    {s s' : GState n} (h : Step n forced now s s') (hInv : GuardInv s) :
    GuardInv s' := by
  cases h with
  | preCheckGo i hpc _ =>
    exact guardInv_update_exit hInv i PC.waiting s.lock s.store rfl
      (fun hfree j _ => hInv.2 hfree j)
  | preCheckNotDue i hpc _ =>
    exact guardInv_update_exit hInv i (PC.finished .notDue) s.lock s.store rfl
      (fun hfree j _ => hInv.2 hfree j)
  | preCheckErr i hpc _ =>
    exact guardInv_update_exit hInv i (PC.finished .errIntervalUndefined)
      s.lock s.store rfl (fun hfree j _ => hInv.2 hfree j)
  | acquire i hpc hfree =>
    exact guardInv_update_acquire hInv i hfree
  | recheckGo i hpc _ =>
    exact guardInv_update_stay hInv i
      (by simp [InGuard, hpc, PC.pastGuard]) PC.working
  | recheckNotDue i hpc _ =>
    exact guardInv_update_exit hInv i (PC.finished .notDue) false s.store rfl
      (fun _ j hji hj =>
        hji (hInv.1 j i hj (by simp [InGuard, hpc, PC.pastGuard])))
  | recheckErr i hpc _ =>
    exact guardInv_update_exit hInv i (PC.finished .errIntervalUndefined)
      false s.store rfl
      (fun _ j hji hj =>
        hji (hInv.1 j i hj (by simp [InGuard, hpc, PC.pastGuard])))
  | workSucceed i pub priv ip hpc _ =>
    exact guardInv_update_exit hInv i (PC.finished .success) false
      (rotateStore s.store pub priv ip now) rfl
      (fun _ j hji hj =>
        hji (hInv.1 j i hj (by simp [InGuard, hpc, PC.pastGuard])))
  | workFail i r hpc hr =>
    refine guardInv_update_exit hInv i (PC.finished r) false s.store rfl
      (fun _ j hji hj =>
        hji (hInv.1 j i hj (by simp [InGuard, hpc, PC.pastGuard])))

/-- The guard invariant holds in every reachable state. -/
theorem guardInv_reachable {n : Nat} {forced : Fin n → Bool} {now : Int}
    {st0 : KeyState} {s : GState n}
    (h : Reachable n forced now st0 s) : GuardInv s := by
  induction h with
  | refl => exact guardInv_init n st0
  | tail _ hstep ih => exact guardInv_step hstep ih

/-- C8: in every state reachable under arbitrary interleaving of concurrent
`ensureFresh`/`generateKeys` attempts, at most one thread is past the
mutual-exclusion guard (inside the re-check, key generation, issuance or
persistence); and the locked re-check applied to a store just rotated by a
concurrent attempt concludes not-due, so a waiting non-forced attempt exits
via `notDue` (the `recheckNotDue` transition) instead of double-rotating. -/
theorem c8_guard_mutual_exclusion (n : Nat) (forced : Fin n → Bool)
    (now : Int) (st0 : KeyState) (s : GState n)
    (hs : Reachable n forced now st0 s) :
    (∀ i j : Fin n, InGuard s i → InGuard s j → i = j) ∧
    (∀ (st : KeyState) (pub priv ip : String) (t : Int),
      0 < st.interval → pub.length ≠ 0 →
      isNecessaryUpdate true (rotateStore st pub priv ip t) t =
        Except.ok false) := by
  refine ⟨(guardInv_reachable hs).1, fun st pub priv ip t hInt hPub => ?_⟩
  have hk : 0 < pub.length := Nat.pos_of_ne_zero hPub
  have hi : ¬ st.interval ≤ 0 := by omega
  have hd : t + st.interval > t := by omega
  simp [isNecessaryUpdate, rotateStore, hk, hi, hd]

/-- Witness for C8: the initial two-thread state is reachable, and the
re-check on a freshly rotated store at the same instant is not due. -/
theorem c8_guard_mutual_exclusion_witness :
    isNecessaryUpdate true
      (rotateStore ⟨"sess", "", "", "", 0, hour⟩ "k" "p" "10.0.0.2" 5) 5 =
      Except.ok false :=
  (c8_guard_mutual_exclusion 2 (fun _ => false) 5 ⟨"sess", "", "", "", 0, hour⟩
      (initGState 2 ⟨"sess", "", "", "", 0, hour⟩)
      Relation.ReflTransGen.refl).2
    ⟨"sess", "", "", "", 0, hour⟩ "k" "p" "10.0.0.2" 5 (by decide) (by decide)
